import Mathlib

/-!
Verification of the constraint evaluation and aggregation engine of the
RadOnc DoseCheck application (`src/App.tsx`).

JavaScript numbers are modelled as `JSNum`: an exact rational together with
the special values `NaN`, `+Infinity` and `-Infinity`, with JavaScript's
comparison and arithmetic semantics on the special values (every comparison
involving NaN is false, `Infinity - Infinity = NaN`, ...).  A measurement
that may be `undefined` is an `Option JSNum`.
-/

/-- Model of a JavaScript `number`: a finite rational or one of the special
values `NaN`, `+Infinity`, `-Infinity`. -/
inductive JSNum where
  | nan : JSNum
  | posInf : JSNum
  | negInf : JSNum
  | fin (q : ℚ) : JSNum
deriving DecidableEq

namespace JSNum

/-- `Number.isNaN`. -/
def isNaN : JSNum → Bool
  | nan => true
  | _ => false

/-- Whether the value is a finite number (`Number.isFinite`). -/
def isFinite : JSNum → Bool
  | fin _ => true
  | _ => false

/-- JavaScript `<=` (false whenever either operand is NaN). -/
def le : JSNum → JSNum → Bool
  | nan, _ => false
  | _, nan => false
  | negInf, _ => true
  | posInf, posInf => true
  | posInf, negInf => false
  | posInf, fin _ => false
  | fin _, posInf => true
  | fin _, negInf => false
  | fin p, fin q => decide (p ≤ q)

/-- JavaScript `>=` (false whenever either operand is NaN). -/
def ge (a b : JSNum) : Bool := le b a

/-- JavaScript subtraction. -/
def sub : JSNum → JSNum → JSNum
  | nan, _ => nan
  | _, nan => nan
  | posInf, posInf => nan
  | posInf, negInf => posInf
  | posInf, fin _ => posInf
  | negInf, negInf => nan
  | negInf, posInf => negInf
  | negInf, fin _ => negInf
  | fin _, posInf => negInf
  | fin _, negInf => posInf
  | fin p, fin q => fin (p - q)

/-- JavaScript multiplication. -/
def mul : JSNum → JSNum → JSNum
  | nan, _ => nan
  | _, nan => nan
  | posInf, posInf => posInf
  | posInf, negInf => negInf
  | posInf, fin q => if q = 0 then nan else if 0 < q then posInf else negInf
  | negInf, posInf => negInf
  | negInf, negInf => posInf
  | negInf, fin q => if q = 0 then nan else if 0 < q then negInf else posInf
  | fin p, posInf => if p = 0 then nan else if 0 < p then posInf else negInf
  | fin p, negInf => if p = 0 then nan else if 0 < p then negInf else posInf
  | fin p, fin q => fin (p * q)

/-- JavaScript `Math.abs`. -/
def abs : JSNum → JSNum
  | nan => nan
  | posInf => posInf
  | negInf => posInf
  | fin q => fin |q|

end JSNum

/-- `type ConstraintType = "Dmax" | "Dmean" | "Vx"`. -/
inductive ConstraintType where
  | Dmax : ConstraintType
  | Dmean : ConstraintType
  | Vx : ConstraintType
deriving DecidableEq

/-- The `Constraint` record of `App.tsx` (the spec calls `oar` "organ" and
`type` "metricType"). -/
structure Constraint where
  id : String
  site : String
  oar : String
  type : ConstraintType
  param : Option JSNum
  limit : JSNum
  unit : String
  note : Option String
deriving DecidableEq

/-- `EvalStatus` of `App.tsx`. -/
inductive EvalStatus where
  | pass : EvalStatus
  | caution : EvalStatus
  | fail : EvalStatus
  | missing : EvalStatus
deriving DecidableEq

/-- The result record `{ status; delta? }` returned by `evaluateConstraint`. -/
structure EvalResult where
  status : EvalStatus
  delta : Option JSNum
deriving DecidableEq

/-- `evaluateConstraint` of `App.tsx` (lines 24-34), the Classifier:
missing when the measured value is `undefined`/`null` or NaN; otherwise
fail when `measured > limit`; otherwise caution when `measured` lies within
the band `|limit| * cautionPct` below the limit (inclusive), else pass. -/
def evaluateConstraint (measured : Option JSNum) (c : Constraint)
    (cautionPct : ℚ) : EvalResult :=
  match measured with
  | none => { status := .missing, delta := none }
  | some m =>
    if m.isNaN then { status := .missing, delta := none }
    else
      let limit := c.limit
      let delta := limit.sub m
      if m.le limit then
        let band := limit.abs.mul (.fin cautionPct)
        if m.ge (limit.sub band) then { status := .caution, delta := some delta }
        else { status := .pass, delta := some delta }
      else { status := .fail, delta := some delta }

/-- `evaluateConstraint` as called with its default `cautionPct = 0.05`. -/
def evaluateConstraintD (measured : Option JSNum) (c : Constraint) : EvalResult :=
  evaluateConstraint measured c 0.05

/-- A concrete constraint, the first seed entry of `starterConstraints`. -/
def exampleDmax : Constraint :=
  { id := "c1", site := "Head & Neck", oar := "Spinal cord", type := .Dmax,
    param := none, limit := .fin 45, unit := "Gy", note := some "Example only" }

/-- The `Partial<Constraint>` draft `newC` used by the add-constraint form:
every field may be absent. -/
structure Draft where
  site : Option String
  oar : Option String
  type : Option ConstraintType
  param : Option JSNum
  limit : Option JSNum
  unit : Option String
  note : Option String
deriving DecidableEq

/-- The guard of `addConstraint` (line 61):
`!newC.site || !newC.oar || !newC.type || newC.limit == null || !newC.unit`.
A string field is truthy when present and non-empty; `limit == null` is
false for every number, NaN included. -/
def validDraft (d : Draft) : Bool :=
  d.site.any (fun s => s != "") && d.oar.any (fun s => s != "") &&
    d.type.isSome && d.limit.isSome && d.unit.any (fun s => s != "")

/-- The constraint built by `addConstraint` (lines 62-71) from a draft that
passed the guard: `param` is `Number(newC.param)` when the type is `Vx`
(NaN when the draft's `param` is absent) and absent otherwise; `limit` is
`Number(newC.limit)`. -/
def mkConstraint (id : String) (d : Draft) : Constraint :=
  { id := id
    site := d.site.getD ""
    oar := d.oar.getD ""
    type := d.type.getD .Dmax
    param := if d.type = some .Vx then some (d.param.getD .nan) else none
    limit := d.limit.getD .nan
    unit := d.unit.getD ""
    note := d.note }

/-- `addConstraint` of `App.tsx` (lines 60-74) acting on the constraint
list: silently returns the list unchanged when the guard fails, otherwise
appends the built constraint (`id` stands for the generated UUID). -/
def addConstraint (id : String) (newC : Draft) (prev : List Constraint) :
    List Constraint :=
  if !(validDraft newC) then prev
  else prev ++ [mkConstraint id newC]

/-- The ambient state of `App`: the constraint list and the
`Record<string, number | undefined>` of measurements keyed by id. -/
structure AppState where
  constraints : List Constraint
  measurements : String → Option JSNum

/-- `removeConstraint` of `App.tsx` (lines 76-79): filters the constraint
out of the list and deletes its measurement. -/
def removeConstraint (id : String) (s : AppState) : AppState :=
  { constraints := s.constraints.filter (fun c => c.id != id)
    measurements := fun k => if k = id then none else s.measurements k }

/-- `starterConstraints` of `App.tsx` (lines 15-21); the five
`crypto.randomUUID()` ids generated once at module load are passed in. -/
def starterConstraints (i1 i2 i3 i4 i5 : String) : List Constraint :=
  [ { id := i1, site := "Head & Neck", oar := "Spinal cord", type := .Dmax,
      param := none, limit := .fin 45, unit := "Gy", note := some "Example only" },
    { id := i2, site := "Head & Neck", oar := "Brainstem", type := .Dmax,
      param := none, limit := .fin 54, unit := "Gy", note := some "Example only" },
    { id := i3, site := "Head & Neck", oar := "Parotid (mean)", type := .Dmean,
      param := none, limit := .fin 26, unit := "Gy", note := some "Example only" },
    { id := i4, site := "Thorax", oar := "Lung (combined)", type := .Vx,
      param := some (.fin 20), limit := .fin 35, unit := "%",
      note := some "Example only (V20)" },
    { id := i5, site := "Thorax", oar := "Heart (mean)", type := .Dmean,
      param := none, limit := .fin 26, unit := "Gy", note := some "Example only" } ]

/-- The Reset button (line 143): `setConstraints(starterConstraints)`.  It
re-installs the module-level seed list (same ids every time) and touches
nothing else. -/
def resetToDefaults (i1 i2 i3 i4 i5 : String) (s : AppState) : AppState :=
  { s with constraints := starterConstraints i1 i2 i3 i4 i5 }

/-- The `filtered` view (line 49): the whole list when the site filter is
`"All"`, else the constraints whose `site` equals the filter. -/
def filteredConstraints (constraints : List Constraint) (siteFilter : String) :
    List Constraint :=
  constraints.filter (fun c => if siteFilter = "All" then true else c.site == siteFilter)

/-- The summary counts record (line 52). -/
structure Summary where
  pass : ℕ
  caution : ℕ
  fail : ℕ
  missing : ℕ
deriving DecidableEq

/-- The `summary` computation of `App.tsx` (lines 51-58): one counter is
incremented per constraint of the filtered list, according to its
classification. -/
def summary (filtered : List Constraint) (measurements : String → Option JSNum)
    (cautionPct : ℚ) : Summary :=
  filtered.foldl
    (fun acc c =>
      match (evaluateConstraint (measurements c.id) c cautionPct).status with
      | .pass => { acc with pass := acc.pass + 1 }
      | .caution => { acc with caution := acc.caution + 1 }
      | .fail => { acc with fail := acc.fail + 1 }
      | .missing => { acc with missing := acc.missing + 1 })
    { pass := 0, caution := 0, fail := 0, missing := 0 }

/-- Total of the four summary counters. -/
def Summary.total (s : Summary) : ℕ := s.pass + s.caution + s.fail + s.missing

/-- A JSON value tree, the target of `JSON.stringify`. -/
inductive Json where
  | null : Json
  | str (s : String) : Json
  | num (q : ℚ) : Json
  | arr (xs : List Json) : Json
  | obj (kvs : List (String × Json)) : Json

/-- `JSON.stringify` on a number: NaN and the infinities serialize as
`null`. -/
def jsNumToJson : JSNum → Json
  | .fin q => .num q
  | _ => .null

/-- The serialized name of a `ConstraintType`. -/
def typeStr : ConstraintType → String
  | .Dmax => "Dmax"
  | .Dmean => "Dmean"
  | .Vx => "Vx"

/-- `JSON.stringify` on one constraint record: keys in declaration order,
keys whose value is `undefined` (`param` for non-Vx rows, absent `note`)
omitted. -/
def constraintToJson (c : Constraint) : Json :=
  .obj ([("id", .str c.id), ("site", .str c.site), ("oar", .str c.oar),
         ("type", .str (typeStr c.type))]
    ++ (match c.param with
        | some p => [("param", jsNumToJson p)]
        | none => [])
    ++ [("limit", jsNumToJson c.limit), ("unit", .str c.unit)]
    ++ (match c.note with
        | some n => [("note", .str n)]
        | none => []))

/-- `exportJSON` of `App.tsx` (lines 81-89): serializes the full,
unfiltered constraint list as a JSON array. -/
def exportJSON (constraints : List Constraint) : Json :=
  .arr (constraints.map constraintToJson)

/-- Key lookup in a serialized JSON object. -/
def jget (kvs : List (String × Json)) (k : String) : Option Json :=
  (kvs.find? (fun kv => kv.1 == k)).map (fun kv => kv.2)

/-- Reads a JSON string value. -/
def asStr : Option Json → Option String
  | some (.str s) => some s
  | _ => none

/-- Modelled from the spec: no importer exists in `src/`; §4.5 and §8 call
the structured dump "losslessly round-trippable" and "suitable for later
re-import", so this is the re-import of one dumped constraint object:
string fields read back as strings, `metricType` decoded, numeric fields
required to be JSON numbers, optional `param`/`note` restored when their
key is present. -/
def parseConstraint : Json → Option Constraint
  | .obj kvs => do
    let id ← asStr (jget kvs "id")
    let site ← asStr (jget kvs "site")
    let oar ← asStr (jget kvs "oar")
    let tyS ← asStr (jget kvs "type")
    let ty ← if tyS = "Dmax" then some ConstraintType.Dmax
      else if tyS = "Dmean" then some ConstraintType.Dmean
      else if tyS = "Vx" then some ConstraintType.Vx
      else none
    let param ← match jget kvs "param" with
      | none => some none
      | some (.num q) => some (some (JSNum.fin q))
      | some _ => none
    let limit ← match jget kvs "limit" with
      | some (.num q) => some (JSNum.fin q)
      | _ => none
    let unit ← asStr (jget kvs "unit")
    let note ← match jget kvs "note" with
      | none => some (Option.none)
      | some (.str s) => some (some s)
      | some _ => none
    pure { id := id, site := site, oar := oar, type := ty, param := param,
           limit := limit, unit := unit, note := note }
  | _ => none

/-- Modelled from the spec: re-import of a dumped constraint list, element
by element, failing if any element fails. -/
def parseConstraintList : List Json → Option (List Constraint)
  | [] => some []
  | j :: rest => do
    let c ← parseConstraint j
    let cs ← parseConstraintList rest
    pure (c :: cs)

/-- Modelled from the spec: re-import of the structured dump (a JSON array
of constraint objects). -/
def parseConstraints : Json → Option (List Constraint)
  | .arr xs => parseConstraintList xs
  | _ => none

/-- A Vx draft with absent `param` but all five guarded fields present. -/
def vxDraftNoParam : Draft :=
  { site := some "Thorax", oar := some "Lung (combined)", type := some .Vx,
    param := none, limit := some (.fin 35), unit := some "%", note := none }

/-- The constraint `addConstraint` builds from `vxDraftNoParam`:
`param = Number(undefined) = NaN`. -/
def cVxNaN : Constraint :=
  { id := "k4", site := "Thorax", oar := "Lung (combined)", type := .Vx,
    param := some .nan, limit := .fin 35, unit := "%", note := none }

/-- A draft whose `limit` is NaN (as produced by `Number` coercion of a
non-numeric string) and whose guarded fields are all present. -/
def nanLimitDraft : Draft :=
  { site := some "Other", oar := some "X", type := some .Dmax,
    param := none, limit := some .nan, unit := some "Gy", note := none }

/-- A fully valid draft with a finite limit. -/
def goodDraft : Draft :=
  { site := some "Other", oar := some "Rectum", type := some .Dmax,
    param := none, limit := some (.fin 60), unit := some "Gy", note := none }

/-- A state with no constraints and one stored measurement. -/
def exampleState : AppState :=
  { constraints := []
    measurements := fun k => if k = "m1" then some (.fin 3) else none }

/-- Evaluation of the classifier on a finite measured value against a
finite limit: the four branches in exact arithmetic. -/
theorem evaluateConstraint_fin (id site oar unit : String) (ty : ConstraintType)
    (param : Option JSNum) (note : Option String) (L m cp : ℚ) :
    evaluateConstraint (some (.fin m)) ⟨id, site, oar, ty, param, .fin L, unit, note⟩ cp
      = if m ≤ L then
          (if L - |L| * cp ≤ m then ⟨.caution, some (.fin (L - m))⟩
           else ⟨.pass, some (.fin (L - m))⟩)
        else ⟨.fail, some (.fin (L - m))⟩ := by
  simp [evaluateConstraint, JSNum.isNaN, JSNum.le, JSNum.ge, JSNum.sub, JSNum.abs,
    JSNum.mul]

/-- Claim C1: for every constraint with finite limit, every cautionFraction
≥ 0 and every finite measured value, the classifier returns pass when
`measured < limit - |limit|*cautionFraction`, caution when
`limit - |limit|*cautionFraction ≤ measured ≤ limit`, and fail when
`measured > limit`. -/
theorem evaluateConstraint_band_classification (c : Constraint) (L m cp : ℚ)
    (hL : c.limit = .fin L) (hcp : 0 ≤ cp) :
    (m < L - |L| * cp → (evaluateConstraint (some (.fin m)) c cp).status = .pass)
    ∧ (L - |L| * cp ≤ m → m ≤ L →
        (evaluateConstraint (some (.fin m)) c cp).status = .caution)
    ∧ (L < m → (evaluateConstraint (some (.fin m)) c cp).status = .fail) := by
  obtain ⟨id, site, oar, ty, param, limit, unit, note⟩ := c
  simp only at hL
  subst hL
  rw [evaluateConstraint_fin]
  have hband : 0 ≤ |L| * cp := mul_nonneg (abs_nonneg L) hcp
  refine ⟨fun h => ?_, fun h1 h2 => ?_, fun h => ?_⟩
  · rw [if_pos (by linarith), if_neg (by linarith)]
  · rw [if_pos h2, if_pos h1]
  · rw [if_neg (by linarith)]

/-- Claim C1 witness: with the seed Dmax 45 Gy constraint,
cautionFraction 0.05 and measured 40, the classifier returns pass. -/
theorem evaluateConstraint_band_classification_witness :
    (evaluateConstraint (some (.fin 40)) exampleDmax (1/20)).status = .pass :=
  (evaluateConstraint_band_classification exampleDmax 45 40 (1/20) rfl
    (by norm_num)).1 (by norm_num)

/-- Claim C2 counterexample: with cautionFraction = 0, a measurement equal
to the limit is classified caution, not pass as the claim states — the
caution comparison `measured >= limit - band` is inclusive and holds with
band = 0. -/
theorem boundary_zero_fraction_counterexample :
    evaluateConstraint (some (.fin 45)) exampleDmax 0
      = { status := .caution, delta := some (.fin 0) }
    ∧ (evaluateConstraint (some (.fin 45)) exampleDmax 0).status ≠ .pass := by
  have h : evaluateConstraint (some (.fin 45)) exampleDmax 0
      = { status := .caution, delta := some (.fin 0) } := by
    norm_num [evaluateConstraint, exampleDmax, JSNum.isNaN, JSNum.le, JSNum.ge,
      JSNum.sub, JSNum.abs, JSNum.mul]
  exact ⟨h, by rw [h]; decide⟩

/-- Claim C2 (amended): for every constraint with finite limit and every
cautionFraction ≥ 0 — zero included — a measurement equal to the limit is
classified caution. -/
theorem boundary_measured_eq_limit_caution (c : Constraint) (L cp : ℚ)
    (hL : c.limit = .fin L) (hcp : 0 ≤ cp) :
    (evaluateConstraint (some (.fin L)) c cp).status = .caution :=
  (evaluateConstraint_band_classification c L L cp hL hcp).2.1
    (by have := mul_nonneg (abs_nonneg L) hcp; linarith) le_rfl

/-- Claim C2 witness: measured 45 on the seed Dmax 45 Gy constraint with
cautionFraction 0.05 is caution. -/
theorem boundary_measured_eq_limit_caution_witness :
    (evaluateConstraint (some (.fin 45)) exampleDmax (1/20)).status = .caution :=
  boundary_measured_eq_limit_caution exampleDmax 45 (1/20) rfl (by norm_num)

/-- Claim C3 counterexample: an infinite measured value is not classified
missing — `+Infinity` yields fail and `-Infinity` yields pass on the seed
Dmax 45 Gy constraint, because the code only tests `measured == null` and
`Number.isNaN(measured)`. -/
theorem infinite_measured_not_missing :
    (evaluateConstraint (some .posInf) exampleDmax (1/20)).status = .fail
    ∧ (evaluateConstraint (some .posInf) exampleDmax (1/20)).status ≠ .missing
    ∧ (evaluateConstraint (some .negInf) exampleDmax (1/20)).status = .pass := by
  have h : (evaluateConstraint (some .posInf) exampleDmax (1/20)).status = .fail := by
    norm_num [evaluateConstraint, exampleDmax, JSNum.isNaN, JSNum.le, JSNum.ge,
      JSNum.sub, JSNum.abs, JSNum.mul]
  refine ⟨h, by rw [h]; decide, ?_⟩
  norm_num [evaluateConstraint, exampleDmax, JSNum.isNaN, JSNum.le, JSNum.ge,
    JSNum.sub, JSNum.abs, JSNum.mul]

/-- Claim C3 (amended): an absent or NaN measured value is classified
missing with no margin, for every constraint and cautionFraction, and this
takes precedence over the comparisons; every non-NaN measured value
(the infinities included) is classified pass, caution or fail, never
missing. -/
theorem missing_iff_absent_or_nan (c : Constraint) (cp : ℚ) :
    evaluateConstraint none c cp = { status := .missing, delta := none }
    ∧ evaluateConstraint (some .nan) c cp = { status := .missing, delta := none }
    ∧ ∀ m : JSNum, m.isNaN = false →
        (evaluateConstraint (some m) c cp).status ≠ .missing := by
  refine ⟨rfl, rfl, fun m hm => ?_⟩
  unfold evaluateConstraint
  cases hle : m.le c.limit with
  | false => simp [hm, hle]
  | true =>
    cases hge : m.ge (c.limit.sub (c.limit.abs.mul (JSNum.fin cp))) with
    | false => simp [hm, hle, hge]
    | true => simp [hm, hle, hge]

/-- Claim C3 witness: a finite measured value (40 against the Dmax 45 Gy
seed constraint) is never classified missing. -/
theorem missing_iff_absent_or_nan_witness :
    (evaluateConstraint (some (.fin 40)) exampleDmax (1/20)).status ≠ .missing :=
  (missing_iff_absent_or_nan exampleDmax (1/20)).2.2 (.fin 40) rfl

/-- Claim C10: the classifier invoked without an explicit cautionFraction
behaves exactly as if invoked with 0.05, for every measured value and
constraint. -/
theorem evaluateConstraintD_default_fraction :
    ∀ (measured : Option JSNum) (c : Constraint),
      evaluateConstraintD measured c = evaluateConstraint measured c 0.05 :=
  fun _ _ => rfl

/-- Claim C4 counterexample: a `Vx` draft with all five guarded fields
present but `param` absent is not rejected — `addConstraint` inserts a
constraint with `metricType = Vx` and `param = Number(undefined) = NaN`,
mutating the store. -/
theorem vx_draft_without_param_inserted :
    addConstraint "k4" vxDraftNoParam [] = [cVxNaN]
    ∧ cVxNaN.type = .Vx
    ∧ cVxNaN.param = some .nan
    ∧ addConstraint "k4" vxDraftNoParam [] ≠ [] := by
  refine ⟨rfl, rfl, rfl, ?_⟩
  show ([cVxNaN] : List Constraint) ≠ []
  simp

/-- Claim C4 (amended): `addConstraint` validates only that `site`, `organ`
(`oar`), `metricType` (`type`), `limit` and `unit` are present (strings
non-empty); if that validation fails the store is unchanged, otherwise the
built constraint is appended; `param` takes no part in the validation. -/
theorem addConstraint_validation_spec (id : String) (d : Draft)
    (prev : List Constraint) :
    (validDraft d = false → addConstraint id d prev = prev)
    ∧ (validDraft d = true → addConstraint id d prev = prev ++ [mkConstraint id d])
    ∧ (∀ p, validDraft { d with param := p } = validDraft d) :=
  ⟨fun h => by simp [addConstraint, h], fun h => by simp [addConstraint, h],
    fun _ => rfl⟩

/-- Claim C4 witness: a fully valid Dmax draft is appended to the empty
store. -/
theorem addConstraint_validation_spec_witness :
    addConstraint "w4" goodDraft [] = [] ++ [mkConstraint "w4" goodDraft] :=
  (addConstraint_validation_spec "w4" goodDraft []).2.1 rfl

/-- Claim C9 counterexample: a draft whose `limit` is NaN passes the
`limit == null` guard, so `addConstraint` inserts a constraint with a
non-finite limit. -/
theorem addConstraint_nan_limit_inserted :
    addConstraint "k9" nanLimitDraft [] = [mkConstraint "k9" nanLimitDraft]
    ∧ (mkConstraint "k9" nanLimitDraft).limit = .nan
    ∧ (addConstraint "k9" nanLimitDraft []).all (fun c => c.limit.isFinite)
        = false :=
  ⟨rfl, rfl, rfl⟩

/-- Claim C9 (amended): every seed constraint has a finite limit, and
`addConstraint` preserves limit-finiteness of the store for drafts whose
`limit`, when present, is a finite number (a NaN draft limit is the one
way to break the invariant). -/
theorem limit_finite_invariant (i1 i2 i3 i4 i5 id : String) (d : Draft)
    (prev : List Constraint)
    (hp : prev.all (fun c => c.limit.isFinite) = true)
    (hd : d.limit.all JSNum.isFinite = true) :
    (starterConstraints i1 i2 i3 i4 i5).all (fun c => c.limit.isFinite) = true
    ∧ (addConstraint id d prev).all (fun c => c.limit.isFinite) = true := by
  refine ⟨rfl, ?_⟩
  unfold addConstraint
  split
  · exact hp
  · rename_i h
    simp only [Bool.not_eq_true', Bool.not_eq_false] at h
    simp only [List.all_append, hp, Bool.true_and, List.all_cons, List.all_nil,
      Bool.and_true, mkConstraint]
    cases hl : d.limit with
    | none => rw [validDraft, hl] at h; simp at h
    | some l =>
      rw [hl] at hd
      simp only [Option.all_some] at hd
      simp [hl, hd]

/-- Claim C9 witness: adding a valid draft with finite limit 60 to the
empty store keeps every limit finite, and the seed set already satisfies
the invariant. -/
theorem limit_finite_invariant_witness :
    (starterConstraints "a" "b" "c" "d" "e").all (fun c => c.limit.isFinite) = true
    ∧ (addConstraint "w9" goodDraft []).all (fun c => c.limit.isFinite) = true :=
  limit_finite_invariant "a" "b" "c" "d" "e" "w9" goodDraft [] rfl rfl

/-- Claim C5 counterexample: after a reset, the previously stored
measurement is still there (the claim says all measurements are
discarded), and a second reset installs exactly the same constraint ids as
the first (the claim says ids are freshly generated at each reset). -/
theorem reset_keeps_measurements_and_ids :
    (resetToDefaults "a" "b" "c" "d" "e" exampleState).measurements "m1"
        = some (.fin 3)
    ∧ (resetToDefaults "a" "b" "c" "d" "e"
          (resetToDefaults "a" "b" "c" "d" "e" exampleState)).constraints
        = (resetToDefaults "a" "b" "c" "d" "e" exampleState).constraints :=
  ⟨rfl, rfl⟩

/-- Claim C5 (amended): the reset replaces the collection with the fixed
seed set — which covers each metricType and two site values — carrying the
ids generated once at module load (identical across resets), and leaves the
measurements untouched. -/
theorem resetToDefaults_spec (i1 i2 i3 i4 i5 : String) (s : AppState) :
    (resetToDefaults i1 i2 i3 i4 i5 s).constraints = starterConstraints i1 i2 i3 i4 i5
    ∧ (resetToDefaults i1 i2 i3 i4 i5 s).measurements = s.measurements
    ∧ (starterConstraints i1 i2 i3 i4 i5).map Constraint.type
        = [.Dmax, .Dmax, .Dmean, .Vx, .Dmean]
    ∧ (starterConstraints i1 i2 i3 i4 i5).map Constraint.site
        = ["Head & Neck", "Head & Neck", "Head & Neck", "Thorax", "Thorax"] :=
  ⟨rfl, rfl, rfl, rfl⟩

/-- Claim C6: removing a constraint also removes its measurement — reading
the deleted id from the measurement store afterwards returns absent — and
filters the constraint out of the list. -/
theorem removeConstraint_cascades_measurement (s : AppState) (id : String) :
    (removeConstraint id s).measurements id = none
    ∧ (removeConstraint id s).constraints
        = s.constraints.filter (fun c => c.id != id) :=
  ⟨by simp [removeConstraint], rfl⟩

/-- Each step of the summary fold increments the running total by exactly
one, whatever the classification. -/
theorem summary_total_aux (ms : String → Option JSNum) (cp : ℚ) :
    ∀ (l : List Constraint) (acc : Summary),
      (List.foldl
        (fun acc c =>
          match (evaluateConstraint (ms c.id) c cp).status with
          | .pass => { acc with pass := acc.pass + 1 }
          | .caution => { acc with caution := acc.caution + 1 }
          | .fail => { acc with fail := acc.fail + 1 }
          | .missing => { acc with missing := acc.missing + 1 })
        acc l).total = acc.total + l.length := by
  intro l
  induction l with
  | nil => intro acc; simp
  | cons c rest ih =>
    intro acc
    rw [List.foldl_cons, ih]
    cases h : (evaluateConstraint (ms c.id) c cp).status <;>
      simp [Summary.total] <;> omega

/-- Claim C7: for every constraint list, measurement map, cautionFraction
and site filter ("All" included), the four summary counts over the
filtered list sum exactly to the length of the filtered list. -/
theorem summary_counts_sum_to_length (cs : List Constraint)
    (ms : String → Option JSNum) (cp : ℚ) (siteFilter : String) :
    (summary (filteredConstraints cs siteFilter) ms cp).total
      = (filteredConstraints cs siteFilter).length := by
  have h := summary_total_aux ms cp (filteredConstraints cs siteFilter)
    { pass := 0, caution := 0, fail := 0, missing := 0 }
  simpa [summary, Summary.total] using h

/-- Parsing the serialization of one constraint whose numeric fields are
finite recovers the constraint. -/
theorem parse_toJson (c : Constraint) (h1 : c.limit.isFinite = true)
    (h2 : c.param.all JSNum.isFinite = true) :
    parseConstraint (constraintToJson c) = some c := by
  obtain ⟨id, site, oar, ty, param, limit, unit, note⟩ := c
  simp only at h1 h2
  cases limit with
  | nan => simp [JSNum.isFinite] at h1
  | posInf => simp [JSNum.isFinite] at h1
  | negInf => simp [JSNum.isFinite] at h1
  | fin L =>
    cases param with
    | none => cases note <;> cases ty <;> rfl
    | some p =>
      cases p with
      | nan => simp [Option.all_some, JSNum.isFinite] at h2
      | posInf => simp [Option.all_some, JSNum.isFinite] at h2
      | negInf => simp [Option.all_some, JSNum.isFinite] at h2
      | fin P => cases note <;> cases ty <;> rfl

/-- Claim C8 (amended): for every constraint list whose limits are finite
and whose present `param`s are finite, the structured export serializes the
full list in order with keys `id, site, oar (organ), type (metricType),
param?, limit, unit, note?` and re-importing the dump yields a list equal
to the original, every field and numeric value preserved; a NaN numeric
field serializes as `null` and breaks the round trip. -/
theorem export_parse_roundtrip (cs : List Constraint)
    (h : cs.all (fun c => c.limit.isFinite && c.param.all JSNum.isFinite) = true) :
    parseConstraints (exportJSON cs) = some cs := by
  induction cs with
  | nil => rfl
  | cons c rest ih =>
    simp only [List.all_cons, Bool.and_eq_true] at h
    obtain ⟨⟨h1, h2⟩, hrest⟩ := h
    have hc := parse_toJson c h1 h2
    have hr : parseConstraintList (rest.map constraintToJson) = some rest :=
      ih (by simpa [List.all_eq_true] using hrest)
    show parseConstraintList (constraintToJson c :: rest.map constraintToJson)
      = some (c :: rest)
    rw [parseConstraintList, hc, hr]
    rfl

/-- Claim C8 witness: the five-element seed list round-trips through the
structured dump unchanged. -/
theorem export_parse_roundtrip_witness :
    parseConstraints (exportJSON (starterConstraints "a" "b" "c" "d" "e"))
      = some (starterConstraints "a" "b" "c" "d" "e") :=
  export_parse_roundtrip (starterConstraints "a" "b" "c" "d" "e") rfl

/-- Claim C8 counterexample: the store can hold a Vx constraint with
`param = NaN` (inserted by `addConstraint` from a param-less Vx draft);
`JSON.stringify` turns that NaN into `null`, the dumped object carries
`"param": null`, and re-importing the dump no longer yields the original
list. -/
theorem roundtrip_fails_on_nan_param :
    parseConstraints (exportJSON [cVxNaN]) = none
    ∧ parseConstraints (exportJSON [cVxNaN]) ≠ some [cVxNaN]
    ∧ constraintToJson cVxNaN
        = .obj [("id", .str "k4"), ("site", .str "Thorax"),
                ("oar", .str "Lung (combined)"), ("type", .str "Vx"),
                ("param", .null), ("limit", .num 35), ("unit", .str "%")] := by
  refine ⟨rfl, ?_, rfl⟩
  intro hEq
  rw [show parseConstraints (exportJSON [cVxNaN]) = none from rfl] at hEq
  exact Option.noConfusion hEq
